import Mathlib

/-!
# Verification of the givenergy-modbus-async core

A shallow embedding, in Lean 4, of the core data model and algorithms of the
`givenergy_modbus` package: the register identity and cache
(`model/register.py`), the time-slot model (`model/__init__.py`), the plant
update engine (`model/plant.py`), the command constructors
(`client/commands.py`) and the PDU decoder dispatch (`decoder.py`).

Python `dict`s holding register values are embedded as total functions with
default-zero semantics (the source uses a `DefaultDict` returning `0`); the
per-address cache table of the plant, where key *presence* matters, is embedded as
`Nat → Option RegisterCache`.  Observer hooks (`registers_updated`,
`register_written`, `battery_updated`), which are no-op methods intended to be
overridden, are embedded as an event list returned alongside the new state.
-/

namespace GivEnergy

/-! ## Registers (`model/register.py`) -/

/-- The two register flavours: `HR` (holding, read-write) and `IR` (input,
read-only).  In the source this is the string `_type` tag of `Register`. -/
inductive RegKind
  | holding
  | input
  deriving DecidableEq, Repr

/-- The `Register.TYPE_HOLDING` / `Register.TYPE_INPUT` string tags. -/
def RegKind.tag : RegKind → String
  | RegKind.holding => "HR"
  | RegKind.input => "IR"

/-- A `Register` is identified by its kind tag and its index; equality and
hashing in the source are structural on `(_type, _idx)`. -/
structure Reg where
  kind : RegKind
  idx : Nat
  deriving DecidableEq, Repr

/-- The `HR(idx)` constructor. -/
def HR (idx : Nat) : Reg := Reg.mk RegKind.holding idx

/-- The `IR(idx)` constructor. -/
def IR (idx : Nat) : Reg := Reg.mk RegKind.input idx

/-- A `RegisterCache` maps registers to 16-bit values; it is a `DefaultDict`
in the source, so reads of absent keys yield `0`.  We embed it as a total
function. -/
def RegisterCache : Type := Reg → Nat

/-- A freshly constructed, empty `RegisterCache()`: every lookup yields 0. -/
def RegisterCache.empty : RegisterCache := fun _ => 0

/-- Single-key store, `cache[reg] = value`. -/
def RegisterCache.set (c : RegisterCache) (r : Reg) (v : Nat) : RegisterCache :=
  fun x => if x = r then v else c x

/-- Embedding of `cache.update(pairs)`: store each key/value pair in turn. -/
def RegisterCache.update (c : RegisterCache) (kvs : List (Reg × Nat)) : RegisterCache :=
  kvs.foldl (fun acc kv => acc.set kv.1 kv.2) c

/-! ## Times and time slots (`model/__init__.py`) -/

/-- A `datetime.time` as used by `TimeSlot`: compared lexicographically by
`(hour, minute, second)` (sub-second precision never arises here). -/
structure Time where
  hour : Nat
  minute : Nat
  second : Nat
  deriving DecidableEq, Repr

/-- Strict `<` on `datetime.time`: lexicographic. -/
def Time.lt (a b : Time) : Bool :=
  decide (a.hour < b.hour) ||
    (decide (a.hour = b.hour) &&
      (decide (a.minute < b.minute) ||
        (decide (a.minute = b.minute) && decide (a.second < b.second))))

/-- Comparison `≤` on `datetime.time`: lexicographic. -/
def Time.le (a b : Time) : Bool :=
  Time.lt a b || decide (a = b)

/-- A `TimeSlot` holds a start and an end time.  (`end` is a reserved word in
Lean, hence the trailing underscore.) -/
structure TimeSlot where
  start : Time
  end_ : Time

/-- Embedding of `TimeSlot.__contains__` for a `time` argument: an empty slot
(`start == end`) contains nothing; a slot with `start < end` contains
`start <= t < end`; otherwise the slot spans midnight and contains
`not (end <= t < start)`.  (The source also accepts an `HHMM` integer,
which it first converts to a `time`.) -/
def TimeSlot.contains (s : TimeSlot) (t : Time) : Bool :=
  if s.start = s.end_ then
    false
  else if Time.lt s.start s.end_ then
    Time.le s.start t && Time.lt t s.end_
  else
    !(Time.le s.end_ t && Time.lt t s.start)

/-! ## PDU model (`pdu`, as consumed by `model/plant.py`)

`Plant.update` inspects only the transparent-response envelope
(`inverter_serial_number`, `data_adapter_serial_number`, `slave_address`,
`error`) and the per-variant payload, so that is what we embed.  A read
response enumerates to the pairs `(register_class(base_register + i), v_i)`
over its `register_values`. -/

/-- Payload of a `TransparentResponse`, one constructor per variant that
`Plant.update` distinguishes. -/
inductive TBody
  | nullResponse
  | readHolding (base_register : Nat) (register_count : Nat) (register_values : List Nat)
  | readInput (base_register : Nat) (register_count : Nat) (register_values : List Nat)
  | writeHolding (register : Nat) (value : Nat)
  deriving DecidableEq, Repr

/-- A `TransparentResponse`: the common envelope plus the variant payload. -/
structure TransparentResponse where
  inverter_serial_number : String
  data_adapter_serial_number : String
  slave_address : Nat
  error : Bool
  body : TBody
  deriving DecidableEq, Repr

/-- A `BasePDU` fed to `Plant.update`: either some non-`TransparentResponse`
message (heartbeats, requests, ...) which the engine drops unexamined, or a
`TransparentResponse`. -/
inductive BasePDU
  | nonTransparent
  | transparent (r : TransparentResponse)
  deriving DecidableEq, Repr

/-- Embedding of `ReadRegistersResponse.enumerate()`: the cache entries
`register_class(base_register + i) ↦ register_values[i]`. -/
def TBody.enumerate (kind : RegKind) (base : Nat) (values : List Nat) : List (Reg × Nat) :=
  values.enum.map (fun iv => (Reg.mk kind (base + iv.1), iv.2))

/-- The test `isinstance(pdu, ReadInputRegistersResponse) and pdu.base_register == 60`. -/
def TransparentResponse.isInputBaseSixty (r : TransparentResponse) : Bool :=
  match r.body with
  | TBody.readInput 60 _ _ => true
  | _ => false

/-! ## The plant update engine (`model/plant.py`) -/

/-- Observer callbacks invoked by the update engine, recorded as events.  In
the source these are the no-op methods `registers_updated`,
`register_written` and `battery_updated` meant to be overridden. -/
inductive Event
  | registers_updated (base : Reg) (count : Nat) (values : List Nat)
  | register_written (base : Reg) (value : Nat)
  | battery_updated (number : Nat) (values : List Nat)
  deriving DecidableEq, Repr

/-- The aggregate `Plant` state. -/
structure Plant where
  register_caches : Nat → Option RegisterCache
  inverter_serial_number : String
  data_adapter_serial_number : String
  number_batteries : Nat
  registers : Finset Reg

/-- The default register set installed by `Plant.__init__` when none is
supplied. -/
def Plant.defaultRegisters : Finset Reg :=
  {HR 0, HR 60, HR 120, HR 180, IR 0, IR 180}

/-- Embedding of `Plant()` with no arguments: one empty cache at `0x32`, no batteries,
the default register set, empty serial numbers. -/
def Plant.init : Plant where
  register_caches := fun a => if a = 0x32 then some RegisterCache.empty else none
  inverter_serial_number := ""
  data_adapter_serial_number := ""
  number_batteries := 0
  registers := Plant.defaultRegisters

/-- Embedding of `Plant.battery_is_valid`: the battery serial number lives in
`IR(110) .. IR(114)` and should be ASCII digits, but the source only probes
the first and the last of those registers. -/
def Plant.battery_is_valid (cache : RegisterCache) : Bool :=
  decide (0x30 ≤ cache (IR 110)) && decide (0x30 ≤ cache (IR 114))

/-- Replace the cache stored at one address. -/
def Plant.storeCache (p : Plant) (address : Nat) (cache : RegisterCache) : Plant :=
  { p with register_caches := fun a => if a = address then some cache else p.register_caches a }

/-- Embedding of `Plant._process_read_registers_response`: upsert the enumerated values
into the cache at `address`; on the battery range `IR(60)` possibly bump
`number_batteries` and emit `battery_updated`.  On any other base register the
source next evaluates `int(basereg) % 60 == 0` — but `Register` defines
neither `__int__` nor `__index__`, so `int(basereg)` raises `TypeError`,
which the blanket `except` in `update` swallows: neither the `registers.add` nor
the `registers_updated` callback is ever reached on that path. -/
def Plant.process_read_registers_response (p : Plant) (address : Nat) (kind : RegKind)
    (base count : Nat) (values : List Nat) : Plant × List Event :=
  let cache := ((p.register_caches address).getD RegisterCache.empty).update
    (TBody.enumerate kind base values)
  let q := p.storeCache address cache
  if Reg.mk kind base = IR 60 then
    let q2 :=
      if q.number_batteries ≤ address - 0x32 then
        if Plant.battery_is_valid cache then
          { q with number_batteries := address - 0x31 }
        else q
      else q
    (q2, [Event.battery_updated (address - 0x32) values])
  else
    (q, [])

/-- Embedding of `Plant._process_write_holding_register_response`: a write response naming
register `0` is ignored as likely corrupt; otherwise the value is stored at
`HR(register)` in the cache at `address` and `register_written` fires.
The `count` placeholder in the source signature does not exist; parameters
are `(address, register, value)`. -/
def Plant.process_write_holding_register_response (p : Plant) (address register value : Nat) :
    Plant × List Event :=
  if register = 0 then
    (p, [])
  else
    let reg := HR register
    let cache := ((p.register_caches address).getD RegisterCache.empty).set reg value
    (p.storeCache address cache, [Event.register_written reg value])

/-- The address-remapping chain of `Plant.update`: addresses `≥ 0x32` are kept;
a `ReadInputRegistersResponse` with `base_register == 60` from a lower address
is dropped; the cloud/mobile aliases `0x11`, `0x30`, `0x31` map to `0x32`;
anything else is dropped (`none`). -/
def TransparentResponse.remapAddress (r : TransparentResponse) : Option Nat :=
  if 0x32 ≤ r.slave_address then
    some r.slave_address
  else if r.isInputBaseSixty then
    none
  else if r.slave_address = 0x11 ∨ r.slave_address = 0x30 ∨ r.slave_address = 0x31 then
    some 0x32
  else
    none

/-- Lines 158-159 of `Plant.update`: cache the envelope serial numbers. -/
def Plant.withSerials (p : Plant) (r : TransparentResponse) : Plant :=
  { p with
    inverter_serial_number := r.inverter_serial_number
    data_adapter_serial_number := r.data_adapter_serial_number }

/-- The step `if address not in self.register_caches: self.register_caches[address] = RegisterCache()`. -/
def Plant.ensureCache (p : Plant) (address : Nat) : Plant :=
  match p.register_caches address with
  | some _ => p
  | none => p.storeCache address RegisterCache.empty

/-- The dispatch tail of `Plant.update` once an address survived remapping. -/
def Plant.dispatch (p : Plant) (address : Nat) (body : TBody) : Plant × List Event :=
  match body with
  | TBody.readHolding base count values =>
      p.process_read_registers_response address RegKind.holding base count values
  | TBody.readInput base count values =>
      p.process_read_registers_response address RegKind.input base count values
  | TBody.writeHolding register value =>
      p.process_write_holding_register_response address register value
  | TBody.nullResponse => (p, [])

/-- Embedding of `Plant.update`, the entry point for processing an incoming message:
drop non-transparent messages, `NullResponse`s and error responses; cache the
envelope serial numbers; remap or drop the slave address; create an empty
cache for a first-seen address; then dispatch on the message variant. -/
def Plant.update (p : Plant) (pdu : BasePDU) : Plant × List Event :=
  match pdu with
  | BasePDU.nonTransparent => (p, [])
  | BasePDU.transparent r =>
    if r.body = TBody.nullResponse then (p, [])
    else if r.error then (p, [])
    else
      let p1 := p.withSerials r
      match r.remapAddress with
      | none => (p1, [])
      | some address => (p1.ensureCache address).dispatch address r.body

/-! ## Command constructors (`client/commands.py`)

These are pure: they build lists of `WriteHoldingRegisterRequest`s (register
number, value) to be sent in order.  Python `bool` payloads are the integers
`0`/`1`.  Out-of-range values raise `ValueError` before any PDU is
constructed, embedded as `Except.error` carrying the message. -/

/-- A `WriteHoldingRegisterRequest(register, value)`. -/
structure WriteHoldingRegisterRequest where
  register : Nat
  value : Int
  deriving DecidableEq, Repr

namespace RegisterMap

/-- Register number `RegisterMap.ENABLE_CHARGE_TARGET`. -/
def ENABLE_CHARGE_TARGET : Nat := 20

/-- Register number `RegisterMap.ENABLE_CHARGE`. -/
def ENABLE_CHARGE : Nat := 96

/-- Register number `RegisterMap.CHARGE_TARGET_SOC`. -/
def CHARGE_TARGET_SOC : Nat := 116

end RegisterMap

/-- Embedding of `set_enable_charge(enabled)`. -/
def set_enable_charge (enabled : Bool) : List WriteHoldingRegisterRequest :=
  [WriteHoldingRegisterRequest.mk RegisterMap.ENABLE_CHARGE (if enabled then 1 else 0)]

/-- Embedding of `disable_charge_target()`: clear the charge-target-enable flag and write
`charge_target_soc = 100`. -/
def disable_charge_target : List WriteHoldingRegisterRequest :=
  [WriteHoldingRegisterRequest.mk RegisterMap.ENABLE_CHARGE_TARGET 0,
   WriteHoldingRegisterRequest.mk RegisterMap.CHARGE_TARGET_SOC 100]

/-- Embedding of `set_charge_target(target_soc)`: validate `4 <= target_soc <= 100`
(raising `ValueError` otherwise), enable charging, then either clear the
target (at 100) or set the enable flag and the target SOC. -/
def set_charge_target (target_soc : Int) : Except String (List WriteHoldingRegisterRequest) :=
  if ¬(4 ≤ target_soc ∧ target_soc ≤ 100) then
    Except.error ("Charge Target SOC (" ++ toString target_soc ++ ") must be in [4-100]%")
  else
    Except.ok
      (set_enable_charge true ++
        (if target_soc = 100 then
          disable_charge_target
        else
          [WriteHoldingRegisterRequest.mk RegisterMap.ENABLE_CHARGE_TARGET 1,
           WriteHoldingRegisterRequest.mk RegisterMap.CHARGE_TARGET_SOC target_soc]))

/-! ## PDU decoder dispatch (`decoder.py`)

`GivEnergyDecoder.decode` receives the raw frame bytes, reads the function
code at offset 19, and either reports the frame too short, builds an
`ExceptionResponse`, dispatches to the decoder registered for the code in the
lookup table of the factory, or reports that no decoder exists.  We embed the
lookup table as the list of function codes it contains. -/

/-- Possible outcomes of `GivEnergyDecoder.decode`. -/
inductive DecodeResult
  | tooShort
  | exceptionResponse (code : Nat)
  | decoded (fn_code : Nat)
  | noDecoder (fn_code : Nat)
  deriving DecidableEq, Repr

/-- Whether a decode outcome is an `ExceptionResponse`. -/
def DecodeResult.isException : DecodeResult → Bool
  | DecodeResult.exceptionResponse _ => true
  | _ => false

namespace GivEnergyDecoder

/-- Embedding of `GivEnergyDecoder.decode(data)`: frames of at most 19 bytes are too short;
a function code strictly above `0x80` yields `ExceptionResponse(fn & 0x7F)`;
otherwise the code is looked up in the function table of the factory. -/
def decode (lookup : List Nat) (data : List Nat) : DecodeResult :=
  if data.length ≤ 19 then
    DecodeResult.tooShort
  else
    let fn_code := data.getD 19 0
    if 0x80 < fn_code then
      DecodeResult.exceptionResponse (fn_code &&& 0x7F)
    else if fn_code ∈ lookup then
      DecodeResult.decoded fn_code
    else
      DecodeResult.noDecoder fn_code

/-- The function codes of `GivEnergyClientDecoder._function_table`
(`ReadHoldingRegistersRequest` = `0x03`, `ReadInputRegistersRequest` =
`0x04`, per the wire protocol). -/
def clientTable : List Nat := [0x03, 0x04]

end GivEnergyDecoder

/-! ## `RegisterCache` JSON serialization (`model/register.py`)

`RegisterCache.json()` calls `json.dumps(self)`; `RegisterCache.from_json()`
parses with an object hook that rewrites each string key back into a
`Register`.  We embed the key handling: the string a `RegisterEncoder`
produces for a register, and the per-key behaviour of
`register_object_hook`, which accepts only `"HR(5)"`- or `"HR:5"`-shaped
keys.  A raised Python exception is `Except.error`. -/

/-- Python exceptions relevant to the object hook. -/
inductive PyError
  | valueError
  | keyError
  deriving DecidableEq, Repr

/-- Embedding of `RegisterEncoder.default`: a `Register` renders as
`f"{o._type}_{o._idx}"`, i.e. `"HR_<idx>"` / `"IR_<idx>"`. -/
def RegisterEncoder.encodeRegister (r : Reg) : String :=
  r.kind.tag ++ "_" ++ toString r.idx

/-- Python `str.find(c)`: index of the first occurrence, `-1` when absent. -/
def pyFind (s : String) (c : Char) : Int :=
  match s.toList.findIdx? (fun x => x = c) with
  | some i => (i : Int)
  | none => -1

/-- Split a character list at the first occurrence of `c`
(`str.split(c, maxsplit=1)` when `c` is present). -/
def splitOnceAux (c : Char) : List Char → List Char × List Char
  | [] => ([], [])
  | x :: xs =>
    if x = c then ([], xs)
    else
      let r := splitOnceAux c xs
      (x :: r.1, r.2)

/-- Python `str.split(c, maxsplit=1)` for a present separator: the parts before and
after its first occurrence. -/
def pySplitOnce (s : String) (c : Char) : String × String :=
  let r := splitOnceAux c s.toList
  (String.mk r.1, String.mk r.2)

/-- Python `int(s)` on the digit strings arising here: `some` value when `s`
is a non-empty run of decimal digits, otherwise a `ValueError` (`none`). -/
def pyInt (s : String) : Option Nat :=
  let l := s.toList
  if l ≠ [] ∧ l.all Char.isDigit then
    some (l.foldl (fun acc c => 10 * acc + (c.toNat - 48)) 0)
  else
    none

/-- The store `ret[lookup[reg](int(idx))] = v`: `lookup[reg]` raises `KeyError` for an
unknown tag (NOT caught — only `ValueError` is); `int(idx)` raises
`ValueError` for a malformed index, which IS caught, silently discarding the
key (`Except.ok none`). -/
def lookupRegister (reg idx : String) : Except PyError (Option Reg) :=
  match (if reg = "HR" then some RegKind.holding
         else if reg = "IR" then some RegKind.input
         else none) with
  | none => Except.error PyError.keyError
  | some kind =>
    match pyInt idx with
    | none => Except.ok none
    | some n => Except.ok (some (Reg.mk kind n))

/-- One key of `register_object_hook`: keys containing `(` past position 0
parse as `"HR(5)"` (dropping the trailing character of the index part); keys
containing `:` past position 0 parse as `"HR:5"`; any other key raises
`ValueError("... is not a valid Register type")`. -/
def register_object_hook_key (k : String) : Except PyError (Option Reg) :=
  if 0 < pyFind k '(' then
    let s := pySplitOnce k '('
    lookupRegister s.1 (String.mk s.2.toList.dropLast)
  else if 0 < pyFind k ':' then
    let s := pySplitOnce k ':'
    lookupRegister s.1 s.2
  else
    Except.error PyError.valueError

/-- Embedding of `register_object_hook` over a whole parsed JSON object: rewrite each key,
discarding silently the keys whose index fails `int()`, propagating the first
raised exception. -/
def register_object_hook (kvs : List (String × Nat)) : Except PyError (List (Reg × Nat)) :=
  match kvs with
  | [] => Except.ok []
  | (k, v) :: rest =>
    match register_object_hook_key k with
    | Except.error e => Except.error e
    | Except.ok none => register_object_hook rest
    | Except.ok (some r) =>
      match register_object_hook rest with
      | Except.error e => Except.error e
      | Except.ok tail => Except.ok ((r, v) :: tail)

/-! ## Concrete inputs used by witnesses and counterexamples -/

/-- An unrecognized low address (`0x10`) carrying an inverter read block. -/
def rAliasSixteen : TransparentResponse :=
  TransparentResponse.mk "SA1234G567" "WF1234G567" 0x10 false (TBody.readHolding 0 3 [1, 2, 3])

/-- A corrupt write response (`register == 0`) from the fresh battery
address `0x33`. -/
def rCorruptThirtyThree : TransparentResponse :=
  TransparentResponse.mk "SA1234G567" "WF1234G567" 0x33 false (TBody.writeHolding 0 5)

/-- A cache holding credible serial bytes only at the probed end registers
`IR(110)` and `IR(114)`; the middle serial registers stay 0. -/
def cacheEndsOnly : RegisterCache :=
  RegisterCache.empty.update [(IR 110, 0x30), (IR 114, 0x31)]

/-- The spurious battery block of test scenario 4: alias `0x11`,
`base_register=60`. -/
def rSpuriousBattery : TransparentResponse :=
  TransparentResponse.mk "SA1234G567" "WF1234G567" 0x11 false (TBody.readInput 60 3 [10, 11, 12])

/-- The shortest decodable frame whose function-code byte is exactly `0x80`. -/
def frameFnEighty : List Nat := List.replicate 19 0 ++ [0x80]

/-- A frame carrying the exception function code `0x83`. -/
def frameFnEightyThree : List Nat := List.replicate 19 0 ++ [0x83]

/-! ## Preservation lemmas for the update engine -/


lemma dispatch_fst_inverter_serial (q : Plant) (address : Nat) (body : TBody) :
    (q.dispatch address body).1.inverter_serial_number = q.inverter_serial_number := by
  cases body with
  | nullResponse => rfl
  | writeHolding register value =>
    simp only [Plant.dispatch, Plant.process_write_holding_register_response]
    split <;> rfl
  | readHolding base count values =>
    simp only [Plant.dispatch, Plant.process_read_registers_response]
    split <;> (try split) <;> (try split) <;> rfl
  | readInput base count values =>
    simp only [Plant.dispatch, Plant.process_read_registers_response]
    split <;> (try split) <;> (try split) <;> rfl

lemma dispatch_fst_adapter_serial (q : Plant) (address : Nat) (body : TBody) :
    (q.dispatch address body).1.data_adapter_serial_number = q.data_adapter_serial_number := by
  cases body with
  | nullResponse => rfl
  | writeHolding register value =>
    simp only [Plant.dispatch, Plant.process_write_holding_register_response]
    split <;> rfl
  | readHolding base count values =>
    simp only [Plant.dispatch, Plant.process_read_registers_response]
    split <;> (try split) <;> (try split) <;> rfl
  | readInput base count values =>
    simp only [Plant.dispatch, Plant.process_read_registers_response]
    split <;> (try split) <;> (try split) <;> rfl

lemma dispatch_fst_registers (q : Plant) (address : Nat) (body : TBody) :
    (q.dispatch address body).1.registers = q.registers := by
  cases body with
  | nullResponse => rfl
  | writeHolding register value =>
    simp only [Plant.dispatch, Plant.process_write_holding_register_response]
    split <;> rfl
  | readHolding base count values =>
    simp only [Plant.dispatch, Plant.process_read_registers_response]
    split <;> (try split) <;> (try split) <;> rfl
  | readInput base count values =>
    simp only [Plant.dispatch, Plant.process_read_registers_response]
    split <;> (try split) <;> (try split) <;> rfl

lemma ensureCache_inverter_serial (p : Plant) (address : Nat) :
    (p.ensureCache address).inverter_serial_number = p.inverter_serial_number := by
  unfold Plant.ensureCache
  split <;> rfl

lemma ensureCache_adapter_serial (p : Plant) (address : Nat) :
    (p.ensureCache address).data_adapter_serial_number = p.data_adapter_serial_number := by
  unfold Plant.ensureCache
  split <;> rfl

lemma ensureCache_registers (p : Plant) (address : Nat) :
    (p.ensureCache address).registers = p.registers := by
  unfold Plant.ensureCache
  split <;> rfl

lemma update_fst_registers (p : Plant) (pdu : BasePDU) :
    (p.update pdu).1.registers = p.registers := by
  cases pdu with
  | nonTransparent => rfl
  | transparent r =>
    simp only [Plant.update]
    by_cases hnull : r.body = TBody.nullResponse
    · rw [if_pos hnull]
    · rw [if_neg hnull]
      by_cases herr : r.error
      · rw [if_pos herr]
      · rw [if_neg herr]
        cases hrm : r.remapAddress with
        | none => rfl
        | some address =>
          rw [dispatch_fst_registers, ensureCache_registers]
          rfl

lemma foldl_update_registers (pdus : List BasePDU) :
    ∀ p : Plant, (List.foldl (fun q pdu => (q.update pdu).1) p pdus).registers = p.registers := by
  induction pdus with
  | nil => intro p; rfl
  | cons hd tl ih =>
    intro p
    rw [List.foldl_cons, ih, update_fst_registers]

lemma mem_defaultRegisters (s : Reg) (hs : s ∈ Plant.defaultRegisters) :
    s.idx % 60 = 0 ∧ s ≠ IR 60 := by
  simp only [Plant.defaultRegisters, Finset.mem_insert, Finset.mem_singleton] at hs
  rcases hs with h | h | h | h | h | h <;> subst h <;> exact ⟨by decide, by decide⟩


/-! ## Claim C1 -/

/-- Claim C1 (code bug): the JSON forms do not round-trip.  The encoder
renders `HR(5)` as `"HR_5"`, but `register_object_hook` — the parsing side of
`RegisterCache.from_json` — raises `ValueError` on any key holding neither a
`(` nor a `:` past position 0, so it rejects exactly the key shape the
encoder produces instead of rebuilding (or even silently discarding) it. -/
theorem from_json_rejects_encoder_output :
    RegisterEncoder.encodeRegister (HR 5) = "HR_5" ∧
    register_object_hook [("HR_5", 7)] = Except.error PyError.valueError :=
  ⟨rfl, rfl⟩

/-! ## Claim C2 -/

/-- Claim C2: a response whose slave address is below `0x32` and is none of
the aliases `0x11`, `0x30`, `0x31` leaves `register_caches` unchanged; in
particular no cache entry appears at the alias address. -/
theorem update_drops_unknown_alias (p : Plant) (r : TransparentResponse)
    (h1 : r.slave_address < 0x32) (h2 : r.slave_address ≠ 0x11)
    (h3 : r.slave_address ≠ 0x30) (h4 : r.slave_address ≠ 0x31) :
    (p.update (BasePDU.transparent r)).1.register_caches = p.register_caches ∧
    (p.register_caches r.slave_address = none →
      (p.update (BasePDU.transparent r)).1.register_caches r.slave_address = none) := by
  have hremap : r.remapAddress = none := by
    unfold TransparentResponse.remapAddress
    rw [if_neg (by omega)]
    by_cases hb : r.isInputBaseSixty
    · rw [if_pos hb]
    · rw [if_neg hb, if_neg (by tauto)]
  have hcaches : (p.update (BasePDU.transparent r)).1.register_caches = p.register_caches := by
    simp only [Plant.update]
    by_cases hnull : r.body = TBody.nullResponse
    · rw [if_pos hnull]
    · rw [if_neg hnull]
      by_cases herr : r.error
      · rw [if_pos herr]
      · rw [if_neg herr, hremap]
        rfl
  exact ⟨hcaches, fun h => by rw [hcaches]; exact h⟩


/-- Witness for claim C2 at address `0x10` on a fresh plant. -/
theorem update_drops_unknown_alias_witness :
    (Plant.init.update (BasePDU.transparent rAliasSixteen)).1.register_caches =
        Plant.init.register_caches ∧
      (Plant.init.register_caches rAliasSixteen.slave_address = none →
        (Plant.init.update (BasePDU.transparent rAliasSixteen)).1.register_caches
            rAliasSixteen.slave_address = none) :=
  update_drops_unknown_alias Plant.init rAliasSixteen (by decide) (by decide) (by decide)
    (by decide)

/-! ## Claim C3 -/


/-- Claim C3 counterexample: on a freshly constructed plant, a corrupt write
response from the not-yet-seen address `0x33` DOES change `register_caches` —
`update` creates an empty cache for the first-seen address before it examines
the register number, so the claimed "no cache entry is added" fails. -/
theorem update_corrupt_write_adds_cache_entry :
    ¬((Plant.init.update (BasePDU.transparent rCorruptThirtyThree)).1.register_caches 0x33 =
        Plant.init.register_caches 0x33) := by
  intro h
  have h1 : (Plant.init.update (BasePDU.transparent rCorruptThirtyThree)).1.register_caches
      0x33 = some RegisterCache.empty := rfl
  have h2 : Plant.init.register_caches 0x33 = none := rfl
  rw [h1, h2] at h
  exact Option.noConfusion h

/-- Claim C3 amended: a corrupt write response (`register == 0`) stores no
register value and fires no callback; every pre-existing cache keeps its
contents, though an *empty* cache may be created at the remapped address if
none existed there yet. -/
theorem update_corrupt_write_noop (p : Plant) (r : TransparentResponse) (v : Nat)
    (hb : r.body = TBody.writeHolding 0 v) :
    (∀ a, (p.update (BasePDU.transparent r)).1.register_caches a = p.register_caches a ∨
       (p.register_caches a = none ∧
         (p.update (BasePDU.transparent r)).1.register_caches a = some RegisterCache.empty)) ∧
    (p.update (BasePDU.transparent r)).2 = [] := by
  have hnull : ¬(r.body = TBody.nullResponse) := by rw [hb]; simp
  simp only [Plant.update]
  rw [if_neg hnull]
  by_cases herr : r.error
  · rw [if_pos herr]
    exact ⟨fun a => Or.inl rfl, rfl⟩
  · rw [if_neg herr]
    cases hrm : r.remapAddress with
    | none => exact ⟨fun a => Or.inl rfl, rfl⟩
    | some address =>
      rw [hb]
      simp only [Plant.dispatch, Plant.process_write_holding_register_response,
        eq_self_iff_true, if_true]
      refine ⟨?_, by trivial⟩
      intro a
      unfold Plant.ensureCache
      cases hc : (p.withSerials r).register_caches address with
      | some c => exact Or.inl rfl
      | none =>
        by_cases hax : a = address
        · subst hax
          exact Or.inr ⟨hc, by simp [Plant.storeCache]⟩
        · refine Or.inl ?_
          unfold Plant.storeCache
          dsimp only
          rw [if_neg hax]
          rfl

/-- Witness for the amended claim C3: on the counterexample input, the only
change at `0x33` is the creation of an empty cache. -/
theorem update_corrupt_write_noop_witness :
    (Plant.init.update (BasePDU.transparent rCorruptThirtyThree)).1.register_caches 0x33 =
        Plant.init.register_caches 0x33 ∨
      (Plant.init.register_caches 0x33 = none ∧
        (Plant.init.update (BasePDU.transparent rCorruptThirtyThree)).1.register_caches 0x33 =
          some RegisterCache.empty) :=
  (update_corrupt_write_noop Plant.init rCorruptThirtyThree 5 rfl).1 0x33

/-! ## Claim C4 -/


/-- Claim C4 counterexample: the probe accepts a cache whose `IR(112)` is
below `0x30`, so "valid iff each of `IR(110)..IR(114)` is at least `0x30`"
fails — only the two end registers are consulted. -/
theorem battery_is_valid_middle_counterexample :
    Plant.battery_is_valid cacheEndsOnly = true ∧ cacheEndsOnly (IR 112) < 0x30 :=
  ⟨rfl, by decide⟩

/-- Claim C4 amended: the probe returns true iff `IR(110)` and `IR(114)` —
the first and last serial-number registers only — are each at least `0x30`;
an all-zero cache is still judged invalid. -/
theorem battery_is_valid_iff (cache : RegisterCache) :
    (Plant.battery_is_valid cache = true ↔
      0x30 ≤ cache (IR 110) ∧ 0x30 ≤ cache (IR 114)) ∧
    Plant.battery_is_valid RegisterCache.empty = false := by
  refine ⟨?_, rfl⟩
  simp [Plant.battery_is_valid]

/-! ## Claim C5 -/

/-- Claim C5: a `ReadInputRegistersResponse` with `base_register == 60` from
any slave address below `0x32` is dropped outright: no register cache
(including the inverter cache at `0x32`) changes. -/
theorem update_drops_spurious_battery (p : Plant) (r : TransparentResponse)
    (count : Nat) (values : List Nat)
    (hb : r.body = TBody.readInput 60 count values) (ha : r.slave_address < 0x32) :
    (p.update (BasePDU.transparent r)).1.register_caches = p.register_caches := by
  have hsixty : r.isInputBaseSixty = true := by
    unfold TransparentResponse.isInputBaseSixty
    rw [hb]
  have hremap : r.remapAddress = none := by
    unfold TransparentResponse.remapAddress
    rw [if_neg (by omega), if_pos hsixty]
  have hnull : ¬(r.body = TBody.nullResponse) := by rw [hb]; simp
  simp only [Plant.update]
  rw [if_neg hnull]
  by_cases herr : r.error
  · rw [if_pos herr]
  · rw [if_neg herr, hremap]
    rfl


/-- Witness for claim C5 on the scenario-4 input. -/
theorem update_drops_spurious_battery_witness :
    (Plant.init.update (BasePDU.transparent rSpuriousBattery)).1.register_caches =
      Plant.init.register_caches :=
  update_drops_spurious_battery Plant.init rSpuriousBattery 3 [10, 11, 12] rfl (by decide)

/-! ## Claim C9 -/

/-- Claim C9: every non-error, non-null `TransparentResponse` overwrites both
cached serial numbers with its envelope values — even on paths that go on to
discard the register contents. -/
theorem update_overwrites_serials (p : Plant) (r : TransparentResponse)
    (hnull : r.body ≠ TBody.nullResponse) (herr : r.error = false) :
    (p.update (BasePDU.transparent r)).1.inverter_serial_number = r.inverter_serial_number ∧
    (p.update (BasePDU.transparent r)).1.data_adapter_serial_number =
      r.data_adapter_serial_number := by
  simp only [Plant.update]
  rw [if_neg hnull, if_neg (by simp [herr])]
  cases hrm : r.remapAddress with
  | none => exact ⟨rfl, rfl⟩
  | some address =>
    refine ⟨?_, ?_⟩
    · rw [dispatch_fst_inverter_serial, ensureCache_inverter_serial]
      rfl
    · rw [dispatch_fst_adapter_serial, ensureCache_adapter_serial]
      rfl

/-- Witness for claim C9: the serials stick even for a response whose
registers are discarded (unrecognized alias `0x10`). -/
theorem update_overwrites_serials_witness :
    (Plant.init.update (BasePDU.transparent rAliasSixteen)).1.inverter_serial_number =
        rAliasSixteen.inverter_serial_number ∧
      (Plant.init.update (BasePDU.transparent rAliasSixteen)).1.data_adapter_serial_number =
        rAliasSixteen.data_adapter_serial_number :=
  update_overwrites_serials Plant.init rAliasSixteen (by decide) rfl

/-! ## Claim C10 -/

/-- Claim C10: any register `update` adds to the refresh set has index a
multiple of 60 and is never the battery base `IR(60)`; consequently, starting
from the default constructor set, every reachable element of
`plant.registers` has index divisible by 60.  (In this source the addition is
in fact unreachable: `int(basereg)` raises `TypeError` first, so the set
never grows at all.) -/
theorem update_registers_div_sixty :
    (∀ (q : Plant) (pdu : BasePDU) (s : Reg),
        s ∈ (q.update pdu).1.registers → s ∉ q.registers → s.idx % 60 = 0 ∧ s ≠ IR 60) ∧
    (∀ (pdus : List BasePDU) (s : Reg),
        s ∈ (List.foldl (fun q pdu => (q.update pdu).1) Plant.init pdus).registers →
        s.idx % 60 = 0 ∧ s ≠ IR 60) := by
  constructor
  · intro q pdu s hs hns
    rw [update_fst_registers] at hs
    exact absurd hs hns
  · intro pdus s hs
    rw [foldl_update_registers] at hs
    exact mem_defaultRegisters s hs

/-- Witness for claim C10 at the default plant. -/
theorem update_registers_div_sixty_witness :
    (HR 0).idx % 60 = 0 ∧ HR 0 ≠ IR 60 :=
  update_registers_div_sixty.2 [] (HR 0) (by decide)


/-! ## Claim C6 -/

/-- Claim C6: `set_charge_target(soc)` for `soc ∈ [4, 100]` yields, in order,
`enable_charge = 1` followed by either (`enable_charge_target = 0`,
`charge_target_soc = 100`) when `soc == 100` or (`enable_charge_target = 1`,
`charge_target_soc = soc`) otherwise; outside `[4, 100]` it raises
`ValueError` and yields no PDU. -/
theorem set_charge_target_spec (soc : Int) :
    set_charge_target soc =
      (if 4 ≤ soc ∧ soc ≤ 100 then
        Except.ok
          (WriteHoldingRegisterRequest.mk RegisterMap.ENABLE_CHARGE 1 ::
            (if soc = 100 then
              [WriteHoldingRegisterRequest.mk RegisterMap.ENABLE_CHARGE_TARGET 0,
               WriteHoldingRegisterRequest.mk RegisterMap.CHARGE_TARGET_SOC 100]
            else
              [WriteHoldingRegisterRequest.mk RegisterMap.ENABLE_CHARGE_TARGET 1,
               WriteHoldingRegisterRequest.mk RegisterMap.CHARGE_TARGET_SOC soc]))
      else
        Except.error ("Charge Target SOC (" ++ toString soc ++ ") must be in [4-100]%")) := by
  unfold set_charge_target set_enable_charge disable_charge_target
  by_cases h : 4 ≤ soc ∧ soc ≤ 100
  · rw [if_neg (not_not_intro h), if_pos h]
    by_cases h100 : soc = 100
    · rw [if_pos h100]
      rfl
    · rw [if_neg h100]
      rfl
  · rw [if_pos h, if_neg h]

/-- Witness for claim C6 at `soc = 65` (scenario 6). -/
theorem set_charge_target_spec_witness :
    set_charge_target 65 =
      Except.ok
        [WriteHoldingRegisterRequest.mk RegisterMap.ENABLE_CHARGE 1,
         WriteHoldingRegisterRequest.mk RegisterMap.ENABLE_CHARGE_TARGET 1,
         WriteHoldingRegisterRequest.mk RegisterMap.CHARGE_TARGET_SOC 65] := by
  rw [set_charge_target_spec 65]
  rfl

/-! ## Claim C7 -/


/-- Claim C7 counterexample: the boundary function code `0x80` has its high
bit set, yet `decode` does NOT surface it as an `ExceptionResponse` — the
source tests `fn_code > 0x80`, so `0x80` falls through to the normal lookup
(and, with the configured tables, finds no decoder). -/
theorem decode_fn_eighty_not_exception :
    (0x80 &&& 0x80 ≠ 0) ∧ 19 < frameFnEighty.length ∧
    frameFnEighty.getD 19 0 = 0x80 ∧
    (GivEnergyDecoder.decode GivEnergyDecoder.clientTable frameFnEighty).isException = false :=
  ⟨by decide, by decide, rfl, rfl⟩

/-- Claim C7 amended: a frame long enough to be decoded whose function code
is strictly above `0x80` (i.e. the high bit is set and at least one low bit
too) surfaces as `ExceptionResponse(fn & 0x7F)`; exactly `0x80` instead goes
to normal dispatch. -/
theorem decode_exception_above_eighty (lookup : List Nat) (data : List Nat)
    (hlen : 19 < data.length) (hfn : 0x80 < data.getD 19 0) :
    GivEnergyDecoder.decode lookup data =
      DecodeResult.exceptionResponse (data.getD 19 0 &&& 0x7F) := by
  unfold GivEnergyDecoder.decode
  rw [if_neg (by omega), if_pos hfn]

/-- Witness for the amended claim C7 on an `0x83` (read-holding error)
frame. -/
theorem decode_exception_above_eighty_witness :
    19 < frameFnEightyThree.length ∧ 0x80 < frameFnEightyThree.getD 19 0 ∧
    GivEnergyDecoder.decode GivEnergyDecoder.clientTable frameFnEightyThree =
      DecodeResult.exceptionResponse (frameFnEightyThree.getD 19 0 &&& 0x7F) :=
  ⟨by decide, by decide,
    decode_exception_above_eighty GivEnergyDecoder.clientTable frameFnEightyThree (by decide)
      (by decide)⟩

/-! ## Claim C8 -/

/-- Claim C8: `t in slot` is always false when `start == end`; when
`end < start` (the slot spans midnight) it equals `not (end <= t < start)`;
when `start < end` it equals `start <= t < end`. -/
theorem timeslot_contains_cases (s : TimeSlot) (t : Time) :
    (s.start = s.end_ → s.contains t = false) ∧
    (Time.lt s.end_ s.start = true →
      s.contains t = !(Time.le s.end_ t && Time.lt t s.start)) ∧
    (Time.lt s.start s.end_ = true →
      s.contains t = (Time.le s.start t && Time.lt t s.end_)) := by
  obtain ⟨⟨a, b, c⟩, ⟨d, e, f⟩⟩ := s
  refine ⟨?_, ?_, ?_⟩
  · intro h
    simp only [TimeSlot.contains]
    rw [if_pos h]
  · intro h
    have hne : ¬(Time.mk a b c = Time.mk d e f) := by
      simp only [Time.mk.injEq]
      revert h
      simp [Time.lt]
      omega
    have hlt : ¬(Time.lt (Time.mk a b c) (Time.mk d e f) = true) := by
      revert h
      simp [Time.lt]
      omega
    simp only [TimeSlot.contains]
    rw [if_neg hne, if_neg hlt]
  · intro h
    have hne : ¬(Time.mk a b c = Time.mk d e f) := by
      simp only [Time.mk.injEq]
      revert h
      simp [Time.lt]
      omega
    simp only [TimeSlot.contains]
    rw [if_neg hne, if_pos h]

/-- Witness for claim C8 on the midnight-spanning slot 23:00 → 01:00. -/
theorem timeslot_contains_witness :
    Time.lt (Time.mk 1 0 0) (Time.mk 23 0 0) = true ∧
    TimeSlot.contains (TimeSlot.mk (Time.mk 23 0 0) (Time.mk 1 0 0)) (Time.mk 23 30 0) =
      !(Time.le (Time.mk 1 0 0) (Time.mk 23 30 0) &&
        Time.lt (Time.mk 23 30 0) (Time.mk 23 0 0)) :=
  ⟨by decide,
    (timeslot_contains_cases (TimeSlot.mk (Time.mk 23 0 0) (Time.mk 1 0 0))
      (Time.mk 23 30 0)).2.1 (by decide)⟩

end GivEnergy
